import Mathlib

/-!
Shallow embedding of the DigiByte Rosetta reconciler
(`src/lib/reconciler/index.js`).

The reconciler is a JavaScript class; its methods are embedded as pure
Lean functions over an explicit `ReconcilerState`.  JavaScript dynamic
values that matter here (a variable that may hold a number, a boolean,
`undefined`, or `NaN`) are modelled by the small type `JsVal` together
with the coercion rules of the JS relational and arithmetic operators.
Asynchronous calls to the helper / handler / fetcher collaborators are
modelled by records of pure functions; thrown exceptions are modelled
with `Except`.
-/

set_option autoImplicit false

namespace DigiByteReconciler

/-- Block identifier: index plus opaque hash (spec section 3). -/
structure BlockIdentifier where
  index : Int
  hash : String
deriving DecidableEq, Repr

/-- Account identifier, opaque beyond structural identity. -/
structure AccountIdentifier where
  address : String
deriving DecidableEq, Repr

/-- Currency, opaque beyond structural identity (spec section 3). -/
structure Currency where
  symbol : String
  decimals : Int
deriving DecidableEq, Repr

/-- Amount: an exact base-10 decimal value string plus its currency. -/
structure Amount where
  value : String
  currency : Currency
deriving DecidableEq, Repr

/-- AccountCurrency value pair, as built at `index.js:181-184`. -/
structure AccountCurrency where
  account_identifier : AccountIdentifier
  currency : Currency
deriving DecidableEq, Repr

/-- Inactive-queue element.  The source pushes object literals with key
`lastCheck` (`index.js:292-295`) and `handleSeenAccounts` pushes
literals with neither key (`index.js:84`), while the inactive loop
reads the distinct key `last_check` (`index.js:334-335`).  A JS object
simply lacks the keys it was not given (reading them yields
`undefined`), so the entry is modelled with both keys as options. -/
structure InactiveEntry where
  entry : AccountCurrency
  lastCheck : Option BlockIdentifier := none
  last_check : Option BlockIdentifier := none
deriving DecidableEq, Repr

/-- Balance-change event consumed by the active loop
(`index.js:301-307`): account, currency and the block at which the
change happened. -/
structure BalanceChange where
  account_identifier : AccountIdentifier
  currency : Currency
  block : BlockIdentifier
deriving DecidableEq, Repr

/-! ### JavaScript value coercions

`this.highWaterMark` is assigned a boolean by the constructor
(`index.js:66`) and compared against numbers (`index.js:302`), and the
`catch` block subtracts the never-assigned `headIndex` variable
(`index.js:208`).  The fragment of JS coercion semantics these lines
exercise is modelled here. -/

/-- A JavaScript dynamic value: number, NaN, boolean or undefined. -/
inductive JsVal where
  | num (n : Int)
  | nan
  | bool (b : Bool)
  | undef
deriving DecidableEq, Repr

/-- JS ToNumber on the fragment: booleans coerce to 0 / 1, `undefined`
and `NaN` have no numeric value (they behave as NaN). -/
def JsVal.toNumber : JsVal → Option Int
  | .num n => some n
  | .bool b => some (if b then 1 else 0)
  | .nan => none
  | .undef => none

/-- JS subtraction `a - b`: numeric on numbers, `NaN` as soon as an
operand coerces to NaN. -/
def jsSub (a b : JsVal) : JsVal :=
  match a.toNumber, b.toNumber with
  | some x, some y => .num (x - y)
  | _, _ => .nan

/-- JS relational `a < b`: numeric comparison after coercion; any
comparison involving NaN is false. -/
def jsLt (a b : JsVal) : Bool :=
  match a.toNumber, b.toNumber with
  | some x, some y => decide (x < y)
  | _, _ => false

/-! ### Utilities imported from `../utils`

`src/lib/utils` is not part of this repository snapshot; only the
reconciler imports it.  The two utilities the claims depend on are
modelled from the spec. -/

/-- Value of a decimal digit character, if it is one. -/
def decDigit? (c : Char) : Option Nat :=
  if c = '0' then some 0 else if c = '1' then some 1
  else if c = '2' then some 2 else if c = '3' then some 3
  else if c = '4' then some 4 else if c = '5' then some 5
  else if c = '6' then some 6 else if c = '7' then some 7
  else if c = '8' then some 8 else if c = '9' then some 9
  else none

/-- Parse a run of decimal digits, most significant first. -/
def parseDecDigitsAux : List Char → Nat → Option Nat
  | [], acc => some acc
  | c :: cs, acc =>
    match decDigit? c with
    | some d => parseDecDigitsAux cs (acc * 10 + d)
    | none => none

/-- Parse a base-10 integer numeral string, optional leading minus. -/
def parseDecInt (s : String) : Option Int :=
  match s.data with
  | [] => none
  | '-' :: cs => if cs = [] then none else (parseDecDigitsAux cs 0).map (fun n => -(n : Int))
  | cs => (parseDecDigitsAux cs 0).map (fun n => (n : Int))

/-- Character for a digit value below ten. -/
def digitToChar (n : Nat) : Char :=
  match n with
  | 0 => '0' | 1 => '1' | 2 => '2' | 3 => '3' | 4 => '4'
  | 5 => '5' | 6 => '6' | 7 => '7' | 8 => '8' | _ => '9'

/-- Render a natural number in base 10; the first argument is fuel
bounding the digit count. -/
def natToDigitsAux : Nat → Nat → List Char → List Char
  | 0, _, acc => acc
  | fuel + 1, n, acc =>
    if n < 10 then digitToChar n :: acc
    else natToDigitsAux fuel (n / 10) (digitToChar (n % 10) :: acc)

/-- Render an integer in base 10. -/
def intToDecString (i : Int) : String :=
  match i with
  | .ofNat n => String.mk (natToDigitsAux (n + 1) n [])
  | .negSucc m => String.mk ('-' :: natToDigitsAux (m + 2) (m + 1) [])

/-- Modelled from the spec: `SubtractValues` from `src/lib/utils` (not
in this snapshot).  Spec section 3 requires exact base-10 decimal
subtraction of value strings; the claim inputs are integer numerals,
modelled as exact integer subtraction on decimal strings. -/
def SubtractValues (a b : String) : String :=
  intToDecString ((parseDecInt a).getD 0 - (parseDecInt b).getD 0)

/-- Modelled from the spec: `Hash` from `src/lib/utils` (not in this
snapshot) gives canonical, field-order-independent structural identity
(spec sections 3 and 4.1), so the seen-accounts map keyed by `Hash` is
modelled as a list of `AccountCurrency` with structural membership. -/
def ContainsAccountCurrency (accountCurrencyMap : List AccountCurrency)
    (accountCurrency : AccountCurrency) : Bool :=
  decide (accountCurrency ∈ accountCurrencyMap)

/-! ### Reconciler state and constructor (`index.js:38-89`) -/

/-- Constructor arguments; a JS caller may omit any of them
(`constructor(args = {})`, `index.js:57`). -/
structure ReconcilerArgs where
  highWaterMark : Option Int := none
  lookupBalanceByBlock : Option Bool := none
  requiredDepthInactive : Option Int := none
  waitToCheckDiff : Option Int := none
  waitToCheckDiffSleep : Option Int := none
  withSeenAccounts : Option (List AccountCurrency) := none
  interestingAccounts : Option (List AccountCurrency) := none

/-- Empty constructor argument object. -/
def emptyArgs : ReconcilerArgs := {}

/-- Result of `Object.assign({}, defaults, args)` (`index.js:59`):
every argument falls back to the `defaults` literal of
`index.js:38-45` (`interestingAccounts` has no default and falls back
to `[]` at `index.js:69`). -/
structure Configuration where
  highWaterMark : Int
  lookupBalanceByBlock : Bool
  requiredDepthInactive : Int
  waitToCheckDiff : Int
  waitToCheckDiffSleep : Int
  withSeenAccounts : List AccountCurrency
  interestingAccounts : List AccountCurrency

/-- The `defaults` object merged with the caller arguments. -/
def mkConfiguration (args : ReconcilerArgs) : Configuration where
  highWaterMark := args.highWaterMark.getD (-1)
  lookupBalanceByBlock := args.lookupBalanceByBlock.getD true
  requiredDepthInactive := args.requiredDepthInactive.getD 500
  waitToCheckDiff := args.waitToCheckDiff.getD (10 * 1000)
  waitToCheckDiffSleep := args.waitToCheckDiffSleep.getD 5000
  withSeenAccounts := args.withSeenAccounts.getD []
  interestingAccounts := args.interestingAccounts.getD []

/-- Mutable fields of a `RosettaReconciler` instance
(`index.js:61-77`).  `highWaterMark` is a `JsVal` because the
constructor assigns it the boolean `configuration.lookupBalanceByBlock`
(`index.js:66`), not the numeric `configuration.highWaterMark`. -/
structure ReconcilerState where
  highWaterMark : JsVal
  lookupBalanceByBlock : Bool
  interestingAccounts : List AccountCurrency
  inactiveQueue : List InactiveEntry
  seenAccounts : List AccountCurrency
  requiredDepthInactive : Int
  waitToCheckDiff : Int
  waitToCheckDiffSleep : Int
  changeQueue : List BalanceChange
deriving Repr

/-- `handleSeenAccounts` (`index.js:80-89`): pushes `{ entry: s }` for
each pre-seeded account (no `lastCheck` key) and records each in the
seen map.  Returns (inactive queue contribution, seen set). -/
def handleSeenAccounts (seenAccounts : List AccountCurrency) :
    List InactiveEntry × List AccountCurrency :=
  (seenAccounts.map (fun s => { entry := s }), seenAccounts)

/-- The constructor (`index.js:56-78`). -/
def mkReconciler (args : ReconcilerArgs) : ReconcilerState :=
  let configuration := mkConfiguration args
  { highWaterMark := JsVal.bool configuration.lookupBalanceByBlock
    lookupBalanceByBlock := configuration.lookupBalanceByBlock
    interestingAccounts := configuration.interestingAccounts
    inactiveQueue := (handleSeenAccounts configuration.withSeenAccounts).1
    seenAccounts := (handleSeenAccounts configuration.withSeenAccounts).2
    requiredDepthInactive := configuration.requiredDepthInactive
    waitToCheckDiff := configuration.waitToCheckDiff
    waitToCheckDiffSleep := configuration.waitToCheckDiffSleep
    changeQueue := [] }

/-! ### External collaborators (spec section 6) -/

/-- Indexer-local data access.  `accountBalance` returns the pair
`(cachedBalance, balanceBlock)` of `index.js:148-149`. -/
structure Helper where
  currentBlock : BlockIdentifier
  blockExists : BlockIdentifier → Bool
  accountBalance : AccountIdentifier → Currency → BlockIdentifier →
    Amount × BlockIdentifier

/-- Result sink; a returned `some e` is the truthy error object that
`accountReconciliation` rethrows (`index.js:262`). -/
structure Handler where
  reconciliationFailed : String → AccountIdentifier → Currency →
    Option String → String → BlockIdentifier → Option String
  reconciliationSucceeded : String → AccountIdentifier → Currency →
    String → BlockIdentifier → Option String

/-- The three `ReconcilerError` types (`index.js:52-54`). -/
inductive CompareErr where
  | headBehindLive
  | accountUpdated
  | blockGone
deriving DecidableEq, Repr

/-- Successful comparison triple (`index.js:158-163`). -/
structure CompareOk where
  difference : String
  cachedBalance : String
  headIndex : Int
deriving DecidableEq, Repr

/-- `compareBalance` (`index.js:130-164`).  `head` stands for
`helper.currentBlock` and the pair
`helper.accountBalance accountIdentifier currency head` is the
`(cachedBalance, balanceBlock)` destructuring of `index.js:148-149`;
both are inlined here. -/
def compareBalance (helper : Helper) (accountIdentifier : AccountIdentifier)
    (currency : Currency) (amount : String)
    (blockIdentifier : BlockIdentifier) : Except CompareErr CompareOk :=
  if blockIdentifier.index > helper.currentBlock.index then
    .error .headBehindLive
  else if helper.blockExists blockIdentifier = false then
    .error .blockGone
  else if blockIdentifier.index <
      (helper.accountBalance accountIdentifier currency helper.currentBlock).2.index then
    .error .accountUpdated
  else
    .ok { difference := SubtractValues
            (helper.accountBalance accountIdentifier currency helper.currentBlock).1.value
            amount
          cachedBalance :=
            (helper.accountBalance accountIdentifier currency helper.currentBlock).1.value
          headIndex := helper.currentBlock.index }

/-! ### Inactive-queue bookkeeping (`inactiveAccountQueue`,
`index.js:282-297`) -/

/-- `inactiveAccountQueue` (`index.js:282-297`): on an active run the
first unseen occurrence marks the account seen and enqueues it; an
inactive run always enqueues.  The pushed object literal carries the
key `lastCheck` (`index.js:294`) and no `last_check` key. -/
def inactiveAccountQueue (isInactive : Bool)
    (accountCurrency : AccountCurrency)
    (blockIdentifier : BlockIdentifier)
    (st : ReconcilerState) : ReconcilerState :=
  if isInactive = false ∧
      ContainsAccountCurrency st.seenAccounts accountCurrency = false then
    { st with
      seenAccounts := accountCurrency :: st.seenAccounts
      inactiveQueue := st.inactiveQueue ++
        [{ entry := accountCurrency, lastCheck := some blockIdentifier }] }
  else if isInactive then
    { st with
      inactiveQueue := st.inactiveQueue ++
        [{ entry := accountCurrency, lastCheck := some blockIdentifier }] }
  else
    st

/-! ### Reconciliation coordinator (`accountReconciliation`,
`index.js:180-275`) -/

/-- Faults that escape `accountReconciliation`: the `ReferenceError`
raised by reading the undeclared variable `partialBlockIdentifier`
(`index.js:221`), or a truthy error returned by
`handler.reconciliationFailed` and rethrown (`index.js:262`). -/
inductive RunFault where
  | referenceError (name : String)
  | handlerError (message : String)
deriving DecidableEq, Repr

/-- Arguments of one `handler.reconciliationFailed` invocation
(`index.js:253-260`); `cachedBalance` is `none` when the JS variable
still holds `undefined`. -/
structure FailedCall where
  reconciliationType : String
  account : AccountIdentifier
  currency : Currency
  cachedBalance : Option String
  claimedAmount : String
  block : BlockIdentifier
deriving DecidableEq, Repr

/-- Arguments of one `handler.reconciliationSucceeded` invocation
(`index.js:267-273`). -/
structure SucceededCall where
  reconciliationType : String
  account : AccountIdentifier
  currency : Currency
  amount : String
  block : BlockIdentifier
deriving DecidableEq, Repr

/-- Observable outcome of one `accountReconciliation` invocation: the
callback invocations it performed, the state it left behind, and its
return value (the value of `handler.reconciliationSucceeded`) or the
fault it threw. -/
structure RunResult where
  failedCalls : List FailedCall
  succeededCalls : List SucceededCall
  state : ReconcilerState
  result : Except RunFault (Option String)
deriving Repr

/-- One iteration of the `while (true)` loop either runs
`sleep(waitToCheckDiffSleep); continue` (`index.js:210-211`) or leaves
the loop with a result. -/
inductive ReconcileOutcome where
  | retry
  | done (r : RunResult)
deriving Repr

/-- The reconciliation type strings (`index.js:49-50`). -/
def reconciliationTypeOf (isInactive : Bool) : String :=
  if isInactive then "INACTIVE" else "ACTIVE"

/-- Callback dispatch and bookkeeping, `index.js:246-273`: after the
`try`/`catch`, `difference` and `cachedBalance` hold the comparison
results, or still hold `undefined` (`none`) when the comparator threw.
The loose inequality test of `index.js:252` compares `difference`
against the zero string and is true for `undefined`, so a thrown-and-
swallowed comparison also reaches the failure callback; when that
callback returns no error, control falls through to the bookkeeping
and the success callback. -/
def dispatchCallbacks (handler : Handler) (st : ReconcilerState)
    (accountIdentifier : AccountIdentifier) (currency : Currency)
    (amount : String) (blockIdentifier : BlockIdentifier)
    (isInactive : Bool)
    (difference cachedBalance : Option String) : RunResult :=
  let reconciliationType := reconciliationTypeOf isInactive
  let accountCurrency : AccountCurrency :=
    { account_identifier := accountIdentifier, currency := currency }
  let succeed : List FailedCall → RunResult := fun failedCalls =>
    let st2 := inactiveAccountQueue isInactive accountCurrency blockIdentifier st
    { failedCalls := failedCalls
      succeededCalls := [{ reconciliationType := reconciliationType
                           account := accountIdentifier
                           currency := currency
                           amount := amount
                           block := blockIdentifier }]
      state := st2
      result := .ok (handler.reconciliationSucceeded reconciliationType
        accountIdentifier currency amount blockIdentifier) }
  if difference ≠ some "0" then
    let fc : FailedCall :=
      { reconciliationType := reconciliationType
        account := accountIdentifier
        currency := currency
        cachedBalance := cachedBalance
        claimedAmount := amount
        block := blockIdentifier }
    match handler.reconciliationFailed reconciliationType accountIdentifier
        currency cachedBalance amount blockIdentifier with
    | some e =>
      { failedCalls := [fc], succeededCalls := [], state := st
        result := .error (.handlerError e) }
    | none => succeed [fc]
  else
    succeed []

/-- One iteration of `accountReconciliation` (`index.js:186-274`).
In the `catch` handler the variable `headIndex` was never assigned
(the destructuring at `index.js:199` only runs when `compareBalance`
returns), so it still holds `undefined`: the JS subtraction at
`index.js:208` yields `NaN` and the `NaN < waitToCheckDiff` test at
`index.js:209` is false.  The abandon branch then reads the undeclared
identifier `partialBlockIdentifier` (`index.js:221`), which throws a
`ReferenceError` before `highWaterMark` is assigned. -/
def accountReconciliationIter (helper : Helper) (handler : Handler)
    (st : ReconcilerState) (accountIdentifier : AccountIdentifier)
    (currency : Currency) (amount : String)
    (blockIdentifier : BlockIdentifier) (isInactive : Bool) :
    ReconcileOutcome :=
  match compareBalance helper accountIdentifier currency amount blockIdentifier with
  | .ok ok =>
    .done (dispatchCallbacks handler st accountIdentifier currency amount
      blockIdentifier isInactive (some ok.difference) (some ok.cachedBalance))
  | .error .headBehindLive =>
    let diff := jsSub (JsVal.num blockIdentifier.index) JsVal.undef
    if jsLt diff (JsVal.num st.waitToCheckDiff) then
      .retry
    else
      .done { failedCalls := [], succeededCalls := [], state := st
              result := .error (.referenceError "partialBlockIdentifier") }
  | .error .accountUpdated =>
    .done (dispatchCallbacks handler st accountIdentifier currency amount
      blockIdentifier isInactive none none)
  | .error .blockGone =>
    .done (dispatchCallbacks handler st accountIdentifier currency amount
      blockIdentifier isInactive none none)

/-- `accountReconciliation` as a whole.  Every iteration of its
`while (true)` loop except the `retry` branch leaves the loop, and
`reconcile_iter_never_retries` below proves the `retry` branch is
unreachable, so the loop body runs exactly once; were `retry`
reachable, the loop would re-enter with identical state and spin
forever, which `none` would model. -/
def accountReconciliation (helper : Helper) (handler : Handler)
    (st : ReconcilerState) (accountIdentifier : AccountIdentifier)
    (currency : Currency) (amount : String)
    (blockIdentifier : BlockIdentifier) (isInactive : Bool) :
    Option RunResult :=
  match accountReconciliationIter helper handler st accountIdentifier
      currency amount blockIdentifier isInactive with
  | .done r => some r
  | .retry => none

/-! ### Balance retrieval (`bestBalance` / `getCurrencyBalance` /
`extractAmount`, `index.js:166-178` and `index.js:367-389`) -/

/-- What one pass of the active loop does up to the point where it
either faults, drops the event, or hands it on for reconciliation. -/
inductive ActiveStepResult where
  | fault (message : String)
  | skippedStale (rest : List BalanceChange)
  | reconcile (change : BalanceChange) (rest : List BalanceChange)
deriving Repr

/-- Head of one `reconcileActiveAccounts` iteration
(`index.js:300-302`): `changeQueue.shift()` on an empty queue yields
`undefined` and the immediate `balanceChange.block.index` access
throws a `TypeError`; otherwise the oldest event is popped and the
JS comparison `balanceChange.block.index < this.highWaterMark`
(with `highWaterMark` holding whatever the constructor stored) decides
whether the event is dropped as stale. -/
def reconcileActiveStep (st : ReconcilerState) : ActiveStepResult :=
  match st.changeQueue with
  | [] => .fault "TypeError: cannot read block of undefined"
  | balanceChange :: rest =>
    if jsLt (JsVal.num balanceChange.block.index) st.highWaterMark then
      .skippedStale rest
    else
      .reconcile balanceChange rest

/-- Front-entry eligibility test of `reconcileInactiveAccounts`
(`index.js:333-336`).  The source reads the key `last_check`, which no
enqueue ever writes (`index.js:84` and `index.js:292-295` write
`lastCheck`), so the read yields `undefined`; `undefined == null` is
true. -/
def inactiveEligible (front : InactiveEntry)
    (requiredDepthInactive : Int) (head : BlockIdentifier) : Bool :=
  match front.last_check with
  | none => true
  | some b => decide (b.index + requiredDepthInactive < head.index)

/-- Whether one `reconcileInactiveAccounts` iteration pops and
reconciles the front entry, given the synced head
(`index.js:333-337`). -/
def inactiveStepPops (st : ReconcilerState) (head : BlockIdentifier) : Bool :=
  match st.inactiveQueue with
  | [] => false
  | front :: _ => inactiveEligible front st.requiredDepthInactive head

/-! ### Instrumentation for the seeding discipline (claim about
`inactiveAccountQueue` over whole call sequences) -/

/-- One call to `inactiveAccountQueue` as performed at the end of a
reconciliation attempt (`index.js:265`): the path flag, the
account-currency pair and the claimed block. -/
structure Op where
  isInactive : Bool
  ac : AccountCurrency
  blockId : BlockIdentifier
deriving DecidableEq, Repr

/-- Apply one bookkeeping call to the state. -/
def applyOp (st : ReconcilerState) (o : Op) : ReconcilerState :=
  inactiveAccountQueue o.isInactive o.ac o.blockId st

/-- Number of inactive-queue entries for the pair `ac` that the ACTIVE
path appends while the calls in `ops` run in order from `st`: an
active-path append happens exactly when the guard of
`index.js:286-289` fires for `ac`. -/
def activeAppendsCount (st : ReconcilerState) (ops : List Op)
    (ac : AccountCurrency) : Nat :=
  match ops with
  | [] => 0
  | o :: rest =>
    (if o.isInactive = false ∧
        ContainsAccountCurrency st.seenAccounts o.ac = false ∧
        o.ac = ac then 1 else 0)
    + activeAppendsCount (applyOp st o) rest ac

/-! ### Concrete fixtures used by the witnesses and counterexamples -/

/-- Fixture account. -/
def acct0 : AccountIdentifier := { address := "DAddr0" }

/-- Fixture currency. -/
def cur0 : Currency := { symbol := "DGB", decimals := 8 }

/-- Fixture account-currency pair. -/
def ac0 : AccountCurrency := { account_identifier := acct0, currency := cur0 }

/-- Handler whose callbacks report no error. -/
def handler0 : Handler :=
  { reconciliationFailed := fun _ _ _ _ _ _ => none
    reconciliationSucceeded := fun _ _ _ _ _ => none }

/-- Helper with head at index 1: any claimed block above 1 is ahead of
the head. -/
def helperHead1 : Helper :=
  { currentBlock := { index := 1, hash := "g1" }
    blockExists := fun _ => true
    accountBalance := fun _ _ _ =>
      ({ value := "0", currency := cur0 }, { index := 0, hash := "z" }) }

/-- Helper with head at index 100, cached balance string 500 last
updated at block 50. -/
def helperHead100 : Helper :=
  { currentBlock := { index := 100, hash := "h100" }
    blockExists := fun _ => true
    accountBalance := fun _ _ _ =>
      ({ value := "500", currency := cur0 }, { index := 50, hash := "p50" }) }

/-- Helper for which every block lookup reports the block gone. -/
def helperAllGone : Helper :=
  { currentBlock := { index := 3, hash := "g3" }
    blockExists := fun _ => false
    accountBalance := fun _ _ _ =>
      ({ value := "500", currency := cur0 }, { index := 1, hash := "q1" }) }

/-- Helper with head 10 whose block lookups report gone. -/
def helperGoneHead10 : Helper :=
  { currentBlock := { index := 10, hash := "h10" }
    blockExists := fun _ => false
    accountBalance := fun _ _ _ =>
      ({ value := "1", currency := cur0 }, { index := 0, hash := "z0" }) }

/-- Exact decimal subtraction on the concrete claim values: 500 minus
300 is 200. -/
theorem subtract_500_300 : SubtractValues "500" "300" = "200" := by decide

/-- Exact decimal subtraction on the concrete claim values: 500 minus
500 is 0. -/
theorem subtract_500_500 : SubtractValues "500" "500" = "0" := by decide

/-- The retry branch of `accountReconciliation` is unreachable: in the
`catch` handler `headIndex` is still `undefined`, the JS lag
computation yields `NaN`, and no comparison with `NaN` holds, so the
loop body runs exactly once on every input. -/
theorem reconcile_iter_never_retries (helper : Helper) (handler : Handler)
    (st : ReconcilerState) (accountIdentifier : AccountIdentifier)
    (currency : Currency) (amount : String)
    (blockIdentifier : BlockIdentifier) (isInactive : Bool) :
    accountReconciliationIter helper handler st accountIdentifier currency
      amount blockIdentifier isInactive ≠ ReconcileOutcome.retry := by
  unfold accountReconciliationIter
  cases h : compareBalance helper accountIdentifier currency amount blockIdentifier with
  | ok ok => simp
  | error e => cases e <;> simp [jsLt, jsSub, JsVal.toNumber]

/-- Bookkeeping never removes an account from the seen set. -/
theorem seen_mono (o : Op) (st : ReconcilerState) (a : AccountCurrency)
    (h : a ∈ st.seenAccounts) : a ∈ (applyOp st o).seenAccounts := by
  unfold applyOp inactiveAccountQueue
  split
  · exact List.mem_cons_of_mem _ h
  · split
    · exact h
    · exact h

/-- An account already in the seen set is never appended again by the
active path, whatever calls follow. -/
theorem activeAppendsCount_eq_zero_of_seen (ops : List Op) :
    ∀ (st : ReconcilerState) (ac : AccountCurrency),
      ac ∈ st.seenAccounts → activeAppendsCount st ops ac = 0 := by
  induction ops with
  | nil => intro st ac _; rfl
  | cons o rest ih =>
    intro st ac h
    have hcond : ¬(o.isInactive = false ∧
        ContainsAccountCurrency st.seenAccounts o.ac = false ∧ o.ac = ac) := by
      rintro ⟨-, h2, h3⟩
      rw [h3] at h2
      simp [ContainsAccountCurrency, h] at h2
    simp [activeAppendsCount, hcond, ih _ _ (seen_mono o st ac h)]

/-- A call that is inactive, or concerns a different pair, cannot put
`a` into the seen set. -/
theorem seen_not_mem_applyOp (o : Op) (st : ReconcilerState)
    (a : AccountCurrency) (h : a ∉ st.seenAccounts)
    (h2 : o.isInactive = true ∨ ¬ o.ac = a) :
    a ∉ (applyOp st o).seenAccounts := by
  unfold applyOp inactiveAccountQueue
  split
  · rename_i hc
    intro hmem
    rcases List.mem_cons.mp hmem with h3 | h3
    · rcases h2 with h2 | h2
      · rw [hc.1] at h2
        cases h2
      · exact h2 h3.symm
    · exact h h3
  · split
    · exact h
    · exact h

/-- The first active call for an unseen pair appends it, after which it
is seen and never appended again: over the whole sequence the active
path appends it exactly once. -/
theorem activeAppendsCount_eq_one (ops : List Op) :
    ∀ (st : ReconcilerState) (ac : AccountCurrency),
      ac ∉ st.seenAccounts →
      (∃ o ∈ ops, o.isInactive = false ∧ o.ac = ac) →
      activeAppendsCount st ops ac = 1 := by
  induction ops with
  | nil =>
    rintro st ac - ⟨o, ho, -⟩
    exact absurd ho (List.not_mem_nil o)
  | cons o rest ih =>
    intro st ac hns hex
    by_cases hcase : o.isInactive = false ∧ o.ac = ac
    · have hcont : ContainsAccountCurrency st.seenAccounts o.ac = false := by
        simp [ContainsAccountCurrency, hcase.2, hns]
      have hcond : o.isInactive = false ∧
          ContainsAccountCurrency st.seenAccounts o.ac = false ∧ o.ac = ac :=
        ⟨hcase.1, hcont, hcase.2⟩
      have hseen : ac ∈ (applyOp st o).seenAccounts := by
        unfold applyOp inactiveAccountQueue
        rw [if_pos ⟨hcase.1, hcont⟩]
        show ac ∈ o.ac :: st.seenAccounts
        rw [← hcase.2] at *
        exact List.mem_cons_self _ _
      have hcont2 : ContainsAccountCurrency st.seenAccounts ac = false :=
        hcase.2 ▸ hcont
      simp [activeAppendsCount, hcond, hcont2,
        activeAppendsCount_eq_zero_of_seen rest _ _ hseen]
    · have hcond : ¬(o.isInactive = false ∧
          ContainsAccountCurrency st.seenAccounts o.ac = false ∧ o.ac = ac) := by
        rintro ⟨h1, -, h3⟩
        exact hcase ⟨h1, h3⟩
      have hns2 : ac ∉ (applyOp st o).seenAccounts := by
        apply seen_not_mem_applyOp o st ac hns
        by_cases hi : o.isInactive = true
        · exact Or.inl hi
        · right
          intro hac
          exact hcase ⟨by simpa using hi, hac⟩
      have hex2 : ∃ o2 ∈ rest, o2.isInactive = false ∧ o2.ac = ac := by
        rcases hex with ⟨o2, ho2, hp⟩
        rcases List.mem_cons.mp ho2 with rfl | hm
        · exact absurd ⟨hp.1, hp.2⟩ hcase
        · exact ⟨o2, hm, hp⟩
      simp [activeAppendsCount, hcond, ih _ _ hns2 hex2]

/-! ### Claim theorems -/

/-- C2.  The claim is refuted by the code: on `HeadBehindLive` (head
index 1, claimed index 5) the coordinator neither sleeps-and-retries
below the threshold (lag 4 < waitToCheckDiff 10000) nor raises the
high-water mark above it (lag 4 >= waitToCheckDiff 2): `headIndex` is
still undefined inside the catch handler, so the lag computes to NaN,
the retry test is false, and evaluating the undeclared identifier
`partialBlockIdentifier` throws a ReferenceError — no callback fires
and the state, `highWaterMark` included, is unchanged in both
scenarios. -/
theorem headBehindLive_throws_referenceError :
    accountReconciliation helperHead1 handler0 (mkReconciler emptyArgs)
      acct0 cur0 "0" { index := 5, hash := "b5" } false
      = some { failedCalls := [], succeededCalls := []
               state := mkReconciler emptyArgs
               result := .error (.referenceError "partialBlockIdentifier") }
    ∧ accountReconciliation helperHead1 handler0
        { mkReconciler emptyArgs with waitToCheckDiff := 2 }
        acct0 cur0 "0" { index := 5, hash := "b5" } false
      = some { failedCalls := [], succeededCalls := []
               state := { mkReconciler emptyArgs with waitToCheckDiff := 2 }
               result := .error (.referenceError "partialBlockIdentifier") } :=
  ⟨rfl, rfl⟩

/-- C3.  The failure half of the claim holds: with cached balance 500
and claimed amount 300 at a valid block the difference is 200 and the
failure callback fires exactly once with exactly those values.  But
the claim is refuted on its success half: because `index.js:252-263`
only rethrows a truthy handler error and otherwise falls through, the
success callback is ALSO invoked for the same mismatched outcome. -/
theorem mismatch_invokes_both_callbacks :
    accountReconciliation helperHead100 handler0 (mkReconciler emptyArgs)
      acct0 cur0 "300" { index := 100, hash := "b100" } false
      = some { failedCalls := [{ reconciliationType := "ACTIVE"
                                 account := acct0
                                 currency := cur0
                                 cachedBalance := some "500"
                                 claimedAmount := "300"
                                 block := { index := 100, hash := "b100" } }]
               succeededCalls := [{ reconciliationType := "ACTIVE"
                                    account := acct0
                                    currency := cur0
                                    amount := "300"
                                    block := { index := 100, hash := "b100" } }]
               state := { mkReconciler emptyArgs with
                          seenAccounts := [ac0]
                          inactiveQueue := [{ entry := ac0
                                              lastCheck := some { index := 100, hash := "b100" } }] }
               result := .ok none }
    ∧ SubtractValues "500" "300" = "200" := ⟨rfl, subtract_500_300⟩

/-- C4.  The claim is refuted by the code: a freshly constructed
reconciler with no overrides has `highWaterMark` equal to the BOOLEAN
`true` — the constructor at `index.js:66` copies
`configuration.lookupBalanceByBlock` instead of
`configuration.highWaterMark`, so the -1 default of `index.js:39` is
never used. -/
theorem constructor_highWaterMark_is_bool_flag :
    (mkReconciler emptyArgs).highWaterMark = JsVal.bool true
    ∧ (mkReconciler emptyArgs).highWaterMark ≠ JsVal.num (-1) :=
  ⟨rfl, by decide⟩

/-- C5.  The claim is refuted by the code: a requeued entry is written
with key `lastCheck` (`index.js:294`) but the eligibility test reads
key `last_check` (`index.js:334-335`), which is undefined and loosely
equal to null, so the entry whose last check was block 1000 is already
popped and reconciled at head 1400 with requiredDepthInactive 500
(the claim requires it to wait until the head passes 1500). -/
theorem requeued_entry_always_eligible :
    (inactiveAccountQueue true ac0 { index := 1000, hash := "k" }
        (mkReconciler emptyArgs)).inactiveQueue
      = [{ entry := ac0, lastCheck := some { index := 1000, hash := "k" } }]
    ∧ inactiveEligible
        { entry := ac0, lastCheck := some { index := 1000, hash := "k" } }
        500 { index := 1400, hash := "hd" } = true
    ∧ inactiveStepPops
        { mkReconciler emptyArgs with
          inactiveQueue := [{ entry := ac0
                              lastCheck := some { index := 1000, hash := "k" } }] }
        { index := 1400, hash := "hd" } = true := ⟨rfl, rfl, rfl⟩

/-- C6.  Over any sequence of bookkeeping calls: an account-currency
pair not yet seen is appended by the active path exactly once as soon
as the sequence contains an active call for it; a pair already seen
(in particular one pre-seeded through `withSeenAccounts`) is never
appended by the active path; and every inactive call unconditionally
re-appends its entry. -/
theorem inactive_seeding_dedup (st : ReconcilerState) (ops : List Op)
    (ac : AccountCurrency) :
    (ac ∉ st.seenAccounts →
      (∃ o ∈ ops, o.isInactive = false ∧ o.ac = ac) →
      activeAppendsCount st ops ac = 1)
    ∧ (ac ∈ st.seenAccounts → activeAppendsCount st ops ac = 0)
    ∧ (∀ args : ReconcilerArgs, ac ∈ args.withSeenAccounts.getD [] →
        activeAppendsCount (mkReconciler args) ops ac = 0)
    ∧ (∀ (b : BlockIdentifier) (s : ReconcilerState),
        (inactiveAccountQueue true ac b s).inactiveQueue
          = s.inactiveQueue ++ [{ entry := ac, lastCheck := some b }]) := by
  refine ⟨fun h1 h2 => activeAppendsCount_eq_one ops st ac h1 h2,
          fun h => activeAppendsCount_eq_zero_of_seen ops st ac h,
          fun args h => activeAppendsCount_eq_zero_of_seen ops _ ac ?_,
          fun b s => ?_⟩
  · show ac ∈ (mkReconciler args).seenAccounts
    simpa [mkReconciler, handleSeenAccounts, mkConfiguration] using h
  · unfold inactiveAccountQueue
    rw [if_neg, if_pos rfl]
    rintro ⟨h1, -⟩
    cases h1

/-- Witness for C6 at a concrete run: starting from a fresh reconciler
and running two active calls and one inactive call for the same pair,
the active path appends it exactly once. -/
theorem inactive_seeding_dedup_witness :
    activeAppendsCount (mkReconciler emptyArgs)
      [{ isInactive := false, ac := ac0, blockId := { index := 42, hash := "w" } },
       { isInactive := false, ac := ac0, blockId := { index := 43, hash := "x" } },
       { isInactive := true, ac := ac0, blockId := { index := 44, hash := "y" } }]
      ac0 = 1 :=
  (inactive_seeding_dedup (mkReconciler emptyArgs) _ ac0).1 (by decide) (by decide)

/-- C7 counterexample.  The claim quantifies over EVERY input on which
`blockExists` is false, but the head check of `index.js:133` runs
first: with head 3 and claimed block 5, `blockExists` reports false
and yet the outcome is `HeadBehindLive`, not `BlockGone`. -/
theorem blockGone_shadowed_by_headBehindLive :
    helperAllGone.blockExists { index := 5, hash := "b5" } = false
    ∧ compareBalance helperAllGone acct0 cur0 "500" { index := 5, hash := "b5" }
        = .error .headBehindLive
    ∧ compareBalance helperAllGone acct0 cur0 "500" { index := 5, hash := "b5" }
        ≠ .error .blockGone := by
  refine ⟨rfl, rfl, fun h => ?_⟩
  rw [show compareBalance helperAllGone acct0 cur0 "500" { index := 5, hash := "b5" }
        = Except.error CompareErr.headBehindLive from rfl] at h
  exact CompareErr.noConfusion (Except.error.inj h)

/-- C7 amended.  Whenever `blockExists` reports false AND the claimed
block is not ahead of the head (so the `HeadBehindLive` check of
`index.js:133` does not fire first), `compareBalance` fails with
`BlockGone` regardless of the balance values involved. -/
theorem blockGone_when_block_missing_and_not_ahead (helper : Helper)
    (accountIdentifier : AccountIdentifier) (currency : Currency)
    (amount : String) (blockIdentifier : BlockIdentifier)
    (hmiss : helper.blockExists blockIdentifier = false)
    (hnotahead : blockIdentifier.index ≤ helper.currentBlock.index) :
    compareBalance helper accountIdentifier currency amount blockIdentifier
      = .error .blockGone := by
  unfold compareBalance
  rw [if_neg (by omega), if_pos hmiss]

/-- Witness for C7 amended at a concrete input: head 3, claimed block
2, block gone. -/
theorem blockGone_when_block_missing_and_not_ahead_witness :
    compareBalance helperAllGone acct0 cur0 "9" { index := 2, hash := "b2" }
      = .error .blockGone :=
  blockGone_when_block_missing_and_not_ahead helperAllGone acct0 cur0 "9"
    { index := 2, hash := "b2" } rfl (by decide)

/-- C8.  Whenever the head is at index 100, the claimed block is at
index 100, the block still exists, the account balance as of head is
the string 500 with its balance block not after the claimed block,
and the claimed amount is the string 500: the comparison completes
with difference 0, and `accountReconciliation` invokes the success
callback exactly once with the identifying fields and never invokes
the failure callback. -/
theorem matched_balance_success_once (helper : Helper) (handler : Handler)
    (st : ReconcilerState) (accountIdentifier : AccountIdentifier)
    (currency : Currency) (blockIdentifier : BlockIdentifier)
    (isInactive : Bool)
    (hhead : helper.currentBlock.index = 100)
    (hblk : blockIdentifier.index = 100)
    (hex : helper.blockExists blockIdentifier = true)
    (hval : (helper.accountBalance accountIdentifier currency
        helper.currentBlock).1.value = "500")
    (hbb : (helper.accountBalance accountIdentifier currency
        helper.currentBlock).2.index ≤ blockIdentifier.index) :
    compareBalance helper accountIdentifier currency "500" blockIdentifier
      = .ok { difference := "0", cachedBalance := "500", headIndex := 100 }
    ∧ accountReconciliation helper handler st accountIdentifier currency "500"
        blockIdentifier isInactive
      = some { failedCalls := []
               succeededCalls := [{ reconciliationType := reconciliationTypeOf isInactive
                                    account := accountIdentifier
                                    currency := currency
                                    amount := "500"
                                    block := blockIdentifier }]
               state := inactiveAccountQueue isInactive
                 { account_identifier := accountIdentifier, currency := currency }
                 blockIdentifier st
               result := .ok (handler.reconciliationSucceeded
                 (reconciliationTypeOf isInactive) accountIdentifier currency
                 "500" blockIdentifier) } := by
  have hcmp : compareBalance helper accountIdentifier currency "500" blockIdentifier
      = .ok { difference := "0", cachedBalance := "500", headIndex := 100 } := by
    unfold compareBalance
    rw [if_neg (by omega), if_neg (by simp [hex]), if_neg (by omega), hval, hhead,
      subtract_500_500]
  refine ⟨hcmp, ?_⟩
  unfold accountReconciliation accountReconciliationIter
  rw [hcmp]
  simp [dispatchCallbacks]

/-- Witness for C8 at a concrete environment. -/
theorem matched_balance_success_once_witness :
    accountReconciliation helperHead100 handler0 (mkReconciler emptyArgs)
      acct0 cur0 "500" { index := 100, hash := "b100" } false
      = some { failedCalls := []
               succeededCalls := [{ reconciliationType := reconciliationTypeOf false
                                    account := acct0
                                    currency := cur0
                                    amount := "500"
                                    block := { index := 100, hash := "b100" } }]
               state := inactiveAccountQueue false
                 { account_identifier := acct0, currency := cur0 }
                 { index := 100, hash := "b100" } (mkReconciler emptyArgs)
               result := .ok (handler0.reconciliationSucceeded
                 (reconciliationTypeOf false) acct0 cur0 "500"
                 { index := 100, hash := "b100" }) } :=
  (matched_balance_success_once helperHead100 handler0 (mkReconciler emptyArgs)
    acct0 cur0 { index := 100, hash := "b100" } false
    rfl rfl rfl rfl (by decide)).2

/-- C9 counterexample.  With the active change queue empty (as in a
freshly constructed reconciler) a step of the active loop does not
block: `shift()` yields undefined and the dereference faults. -/
theorem activeStep_faults_on_empty_queue :
    reconcileActiveStep (mkReconciler emptyArgs)
      = .fault "TypeError: cannot read block of undefined" := rfl

/-- C9 amended.  A step of the active loop FAULTS (a TypeError from
dereferencing the undefined result of popping an empty queue) when the
change queue is empty, instead of blocking or suspending; when the
queue is non-empty it pops the oldest event and either drops it as
stale under the high-water mark or reconciles it. -/
theorem activeStep_faults_or_pops (st : ReconcilerState) :
    (st.changeQueue = [] →
      reconcileActiveStep st = .fault "TypeError: cannot read block of undefined")
    ∧ (∀ (c : BalanceChange) (rest : List BalanceChange),
        st.changeQueue = c :: rest →
        reconcileActiveStep st =
          if jsLt (JsVal.num c.block.index) st.highWaterMark then
            .skippedStale rest
          else
            .reconcile c rest) := by
  constructor
  · intro h
    unfold reconcileActiveStep
    rw [h]
  · intro c rest h
    unfold reconcileActiveStep
    rw [h]

/-- Witness for C9 amended: with one queued event the step pops it for
reconciliation. -/
theorem activeStep_faults_or_pops_witness :
    reconcileActiveStep
      { mkReconciler emptyArgs with
        changeQueue := [{ account_identifier := acct0, currency := cur0
                          block := { index := 5, hash := "b5" } }] }
      = .reconcile { account_identifier := acct0, currency := cur0
                     block := { index := 5, hash := "b5" } } [] := by
  have h := (activeStep_faults_or_pops
    { mkReconciler emptyArgs with
      changeQueue := [{ account_identifier := acct0, currency := cur0
                        block := { index := 5, hash := "b5" } }] }).2
    { account_identifier := acct0, currency := cur0
      block := { index := 5, hash := "b5" } } [] rfl
  rw [if_neg (by decide)] at h
  exact h

/-- C10.  Whenever the comparator fails with `AccountUpdated` or
`BlockGone` (a skipped attempt), `accountReconciliation` still invokes
the failure callback exactly once — the undefined difference compares
unequal to the zero string — passing an undefined (`none`) cached
balance; and when that callback returns no error it runs the requeue
bookkeeping and then also invokes the success callback exactly once. -/
theorem skipped_attempt_invokes_callbacks (helper : Helper) (handler : Handler)
    (st : ReconcilerState) (accountIdentifier : AccountIdentifier)
    (currency : Currency) (amount : String)
    (blockIdentifier : BlockIdentifier) (isInactive : Bool)
    (hcmp : compareBalance helper accountIdentifier currency amount blockIdentifier
        = .error .accountUpdated ∨
      compareBalance helper accountIdentifier currency amount blockIdentifier
        = .error .blockGone) :
    ∃ r : RunResult,
      accountReconciliation helper handler st accountIdentifier currency amount
        blockIdentifier isInactive = some r
      ∧ r.failedCalls = [{ reconciliationType := reconciliationTypeOf isInactive
                           account := accountIdentifier
                           currency := currency
                           cachedBalance := none
                           claimedAmount := amount
                           block := blockIdentifier }]
      ∧ (handler.reconciliationFailed (reconciliationTypeOf isInactive)
            accountIdentifier currency none amount blockIdentifier = none →
          r.succeededCalls = [{ reconciliationType := reconciliationTypeOf isInactive
                                account := accountIdentifier
                                currency := currency
                                amount := amount
                                block := blockIdentifier }]
          ∧ r.state = inactiveAccountQueue isInactive
              { account_identifier := accountIdentifier, currency := currency }
              blockIdentifier st) := by
  have key : accountReconciliation helper handler st accountIdentifier currency
      amount blockIdentifier isInactive
      = some (dispatchCallbacks handler st accountIdentifier currency amount
          blockIdentifier isInactive none none) := by
    unfold accountReconciliation accountReconciliationIter
    rcases hcmp with h | h <;> rw [h]
  refine ⟨_, key, ?_, ?_⟩
  · rcases hres : handler.reconciliationFailed (reconciliationTypeOf isInactive)
        accountIdentifier currency none amount blockIdentifier with - | e <;>
      simp [dispatchCallbacks, hres]
  · intro hnone
    constructor <;> simp [dispatchCallbacks, hnone]

/-- Witness for C10 at a concrete environment where the block is gone
and the failure handler reports no error: both callbacks fire. -/
theorem skipped_attempt_invokes_callbacks_witness :
    ∃ r : RunResult,
      accountReconciliation helperGoneHead10 handler0 (mkReconciler emptyArgs)
        acct0 cur0 "7" { index := 5, hash := "b5" } true = some r
      ∧ r.failedCalls = [{ reconciliationType := reconciliationTypeOf true
                           account := acct0
                           currency := cur0
                           cachedBalance := none
                           claimedAmount := "7"
                           block := { index := 5, hash := "b5" } }]
      ∧ (handler0.reconciliationFailed (reconciliationTypeOf true)
            acct0 cur0 none "7" { index := 5, hash := "b5" } = none →
          r.succeededCalls = [{ reconciliationType := reconciliationTypeOf true
                                account := acct0
                                currency := cur0
                                amount := "7"
                                block := { index := 5, hash := "b5" } }]
          ∧ r.state = inactiveAccountQueue true
              { account_identifier := acct0, currency := cur0 }
              { index := 5, hash := "b5" } (mkReconciler emptyArgs)) :=
  skipped_attempt_invokes_callbacks helperGoneHead10 handler0
    (mkReconciler emptyArgs) acct0 cur0 "7" { index := 5, hash := "b5" } true
    (Or.inr rfl)

end DigiByteReconciler
